import Mathlib

/-!
Verification of the video-grid tile-selection and downlink-preference engine
(`src/apps/meeting/src/providers/VideoGridProvider/state.tsx`).

The TypeScript module is shallowly embedded: JavaScript objects keyed by
attendee id become association lists preserving insertion order (JS objects
iterate string keys in insertion order, assignment to an existing key keeps
its position, assignment to a new key appends); `Array.prototype.slice` with a
possibly negative end index is modelled by `jsSliceTo`; the reducer's two
throwing paths (the unknown-action default case and field access on an absent
attendee entry) are modelled with `Except`.
-/

set_option maxHeartbeats 1000000
set_option autoImplicit false

/-- Modelled from the spec: `VideoGridMode` is declared in
`src/apps/meeting/src/types`, which is not part of the reviewed sources; the
spec fixes it as the two-valued layout enum `{GalleryView, FeaturedView}`. -/
inductive VideoGridMode where
  | GalleryView
  | FeaturedView
deriving DecidableEq, Repr

/-- `TargetDisplaySize` of the external SDK: requested resolution tier. -/
inductive TargetDisplaySize where
  | High
  | Medium
  | Low
deriving DecidableEq, Repr

structure GridState where
  mode : VideoGridMode
  isZoomed : Bool
  threshold : Nat
deriving DecidableEq, Repr

structure AttendeeState where
  attendeeId : String
  name : String
  videoEnabled : Bool
  bandwidthConstrained : Bool
deriving DecidableEq, Repr

structure VideoSourceState where
  cameraSources : List String
  activeSpeakersWithCameraSource : List String
  contentShareId : Option String
  hasLocalVideo : Bool
  hasLocalContentSharing : Bool
deriving DecidableEq, Repr

structure VideoSourceWithType where
  attendeeId : String
  type : String
deriving DecidableEq, Repr

/-- The `{ [attendeeId: string]: AttendeeState }` object: an insertion-ordered
association list. -/
abbrev AttendeeStates := List (String × AttendeeState)

structure State where
  gridState : GridState
  attendeeStates : AttendeeStates
  videoSourceState : VideoSourceState
deriving DecidableEq, Repr

deriving instance DecidableEq for Except

/-- `attendeeId in obj` for the attendee-state object. -/
def objHas (m : AttendeeStates) (k : String) : Bool :=
  m.any (fun p => p.1 == k)

/-- `obj[attendeeId]` (undefined becomes `none`). -/
def objGet (m : AttendeeStates) (k : String) : Option AttendeeState :=
  (m.find? (fun p => p.1 == k)).map (fun p => p.2)

/-- In-place field update of the entry at key `k` (JS keeps its position). -/
def objModify (m : AttendeeStates) (k : String) (f : AttendeeState → AttendeeState) :
    AttendeeStates :=
  m.map (fun p => if p.1 == k then (p.1, f p.2) else p)

def initialState : State :=
  { gridState := { mode := VideoGridMode.GalleryView, isZoomed := false, threshold := 8 }
    attendeeStates := []
    videoSourceState :=
      { cameraSources := []
        activeSpeakersWithCameraSource := []
        contentShareId := none
        hasLocalVideo := false
        hasLocalContentSharing := false } }

structure RosterAttendee where
  chimeAttendeeId : String
  externalUserId : Option String := none
  name : Option String := none
deriving DecidableEq, Repr

/-- `RosterType`: object keyed by attendee id, as an insertion-ordered list. -/
abbrev Roster := List (String × RosterAttendee)

structure VideoSourceAttendee where
  attendeeId : String
deriving DecidableEq, Repr

/-- The SDK `VideoSource` (only `attendee.attendeeId` is read). -/
structure VideoSource where
  attendee : VideoSourceAttendee
deriving DecidableEq, Repr

/-- JS truthiness of a `string | null` value: `null` and `""` are falsy. -/
def jsTruthyStr : Option String → Bool
  | none => false
  | some s => !(s == "")

/-- Split a character list on `'#'` (the components of `id.split('#')`). -/
def splitOnHash : List Char → List (List Char)
  | [] => [[]]
  | c :: rest =>
    match splitOnHash rest with
    | [] => [[]]
    | h :: t => if c = '#' then [] :: h :: t else (c :: h) :: t

/-- `DefaultModality` of the external SDK: the modality is the second
`'#'`-separated component of the id (empty when absent). -/
def modality (sourceId : String) : List Char :=
  ((splitOnHash sourceId.data).drop 1).headD []

def MODALITY_CONTENT : List Char := "content".data

def isContentShare (sourceId : String) : Bool :=
  modality sourceId == MODALITY_CONTENT

/-- `l.slice(0, e)` for a possibly negative JS end index `e`. -/
def jsSliceTo {α : Type} (l : List α) (e : Int) : List α :=
  if e < 0 then l.take (e + l.length).toNat else l.take e.toNat

def MAX_SAFE_INTEGER : Int := 9007199254740991

/-- The active-speaker slot budget computed inside
`calculateVideoSourcesToBeRendered` (both modes are covered by the two `if`s
in the source; the initial value 0 is dead). -/
def activeSpeakerBudget (mode : VideoGridMode) (hasLocalVideo : Bool)
    (contentShareId : Option String) : Int :=
  match mode with
  | VideoGridMode.GalleryView => 1
  | VideoGridMode.FeaturedView =>
      4 - (if hasLocalVideo then 1 else 0) - (if jsTruthyStr contentShareId then 1 else 0)

/-- The content-share pass of `calculateVideoSourcesToBeRendered`. -/
def contentShareTiles (attendeeStates : AttendeeStates) : List VideoSourceWithType :=
  attendeeStates.filterMap (fun p =>
    if isContentShare p.1 && p.2.videoEnabled then
      some { attendeeId := p.1, type := "contentShare" }
    else none)

/-- The `activeSpeakers` list of `calculateVideoSourcesToBeRendered` (empty
when no active speaker has a camera source). -/
def emittedActiveSpeakers (gridState : GridState) (videoSourceState : VideoSourceState) :
    List String :=
  if videoSourceState.activeSpeakersWithCameraSource.length > 0 then
    jsSliceTo videoSourceState.activeSpeakersWithCameraSource
      (activeSpeakerBudget gridState.mode videoSourceState.hasLocalVideo
        videoSourceState.contentShareId)
  else []

/-- The `commonSources` candidate pool. -/
def commonSources (gridState : GridState) (videoSourceState : VideoSourceState) :
    List String :=
  if videoSourceState.activeSpeakersWithCameraSource.length > 0 then
    videoSourceState.cameraSources.filter
      (fun id => !((emittedActiveSpeakers gridState videoSourceState).contains id))
  else videoSourceState.cameraSources

/-- The `gridSize` capacity. -/
def gridSize (gridState : GridState) : Int :=
  match gridState.mode with
  | VideoGridMode.GalleryView =>
      if gridState.isZoomed then (gridState.threshold : Int) else MAX_SAFE_INTEGER
  | VideoGridMode.FeaturedView => 4

/-- `numberOfAvailableTiles` left for common sources. -/
def numberOfAvailableTiles (gridState : GridState) (videoSourceState : VideoSourceState) :
    Int :=
  gridSize gridState - (if videoSourceState.hasLocalVideo then 1 else 0)
    - (if jsTruthyStr videoSourceState.contentShareId then 1 else 0)
    - ((emittedActiveSpeakers gridState videoSourceState).length : Int)

def calculateVideoSourcesToBeRendered (gridState : GridState)
    (videoSourceState : VideoSourceState) (attendeeStates : AttendeeStates) :
    List VideoSourceWithType :=
  contentShareTiles attendeeStates
    ++ (emittedActiveSpeakers gridState videoSourceState).map
        (fun attendeeId => { attendeeId := attendeeId, type := "activeSpeaker" })
    ++ (jsSliceTo (commonSources gridState videoSourceState)
          (numberOfAvailableTiles gridState videoSourceState)).map
        (fun attendeeId => { attendeeId := attendeeId, type := "common" })

structure VideoPreference where
  attendeeId : String
  priority : Nat
  targetDisplaySize : TargetDisplaySize
deriving DecidableEq, Repr

/-- One iteration of the preference-building loop in
`updateDownlinkPreferences`: the three independent `if`s on the tile type. -/
def addPreferencesForSource (mode : VideoGridMode) (targetDisplaySize : TargetDisplaySize)
    (videoPreferences : List VideoPreference) (videoSource : VideoSourceWithType) :
    List VideoPreference :=
  let p1 :=
    if videoSource.type == "contentShare" then
      videoPreferences ++ [⟨videoSource.attendeeId, 1, TargetDisplaySize.High⟩]
    else videoPreferences
  let p2 :=
    if videoSource.type == "activeSpeaker" then
      p1 ++ [⟨videoSource.attendeeId, 1,
        if mode = VideoGridMode.FeaturedView then TargetDisplaySize.High
        else targetDisplaySize⟩]
    else p1
  if videoSource.type == "common" then
    p2 ++ [⟨videoSource.attendeeId, 2, targetDisplaySize⟩]
  else p2

/-- `updateDownlinkPreferences`, returning the preference list handed to the
external `priorityBasedPolicy.chooseRemoteVideoSources` call (its only
observable output). -/
def updateDownlinkPreferences (gridState : GridState) (videoSourceState : VideoSourceState)
    (attendeeStates : AttendeeStates) : List VideoPreference :=
  let videoSourcesToBeRendered :=
    calculateVideoSourcesToBeRendered gridState videoSourceState attendeeStates
  let numberOfTiles :=
    videoSourcesToBeRendered.length + (if videoSourceState.hasLocalVideo then 1 else 0)
  let targetDisplaySize :=
    if numberOfTiles ≤ gridState.threshold then TargetDisplaySize.High
    else TargetDisplaySize.Low
  videoSourcesToBeRendered.foldl (addPreferencesForSource gridState.mode targetDisplaySize) []

/-- Action payloads of the tagged union (plus `none` for absent payloads).
Dispatching a code whose case destructures a differently-shaped payload is a
JS runtime `TypeError`, modelled as an `Except.error`. -/
inductive Payload where
  | none
  | videoSources (videoSources : List VideoSource)
  | activeSpeakers (activeSpeakers : List String)
  | roster (roster : Roster)
  | localSourceState (isVideoEnabled : Bool) (localAttendeeId : Option String)
      (isLocalUserSharing : Bool) (sharingAttendeeId : Option String)
  | videoGridMode (videoGridMode : VideoGridMode)
  | attendeeId (attendeeId : String)
deriving DecidableEq, Repr

/-- A dispatched action: the numeric `VideoGridAction` enum value (the TS
enum assigns `ResetVideoGridState = 0` through `ZoomOut = 9`) and a payload. -/
structure RawAction where
  type : Int
  payload : Payload
deriving DecidableEq, Repr

/-- One iteration of the roster loop in `UpdateAttendeeStates`: update the
name in place, or append a fresh disabled entry (`roster[attendeeId]?.name`
falling back to the empty string). -/
def rosterMergeStep (m : AttendeeStates) (kv : String × RosterAttendee) : AttendeeStates :=
  let name := kv.2.name.getD ""
  if objHas m kv.1 then
    objModify m kv.1 (fun a => { a with name := name })
  else
    m ++ [(kv.1, (⟨kv.1, name, false, false⟩ : AttendeeState))]

/-- One iteration of the `cameraSources` reconciliation loop in
`UpdateAttendeeStates`. -/
def reconcileCameraStep (m : AttendeeStates) (attendeeId : String) : AttendeeStates :=
  if objHas m attendeeId then
    objModify m attendeeId (fun a => { a with videoEnabled := true })
  else m

/-- `UpdateAttendeeStates` case body. -/
def applyUpdateAttendeeStates (state : State) (roster : Roster) : State :=
  let kept := state.attendeeStates.filter (fun p =>
    !(!isContentShare p.1 && !(roster.any (fun kv => kv.1 == p.1))))
  let merged := roster.foldl rosterMergeStep kept
  let reconciled := state.videoSourceState.cameraSources.foldl reconcileCameraStep merged
  { state with attendeeStates := reconciled }

/-- Clear `videoEnabled` on every attendee entry. -/
def resetVideoEnabled (m : AttendeeStates) : AttendeeStates :=
  m.map (fun p => (p.1, { p.2 with videoEnabled := false }))

/-- Drop content-share entries whose id is not among the current source ids. -/
def removeStaleContentShares (videoSourceIds : List String) (m : AttendeeStates) :
    AttendeeStates :=
  m.filter (fun p => !(isContentShare p.1 && !(videoSourceIds.contains p.1)))

/-- The entry created for a source id first seen in a video-source update
(the source literal omits `videoEnabled`, which is set immediately after). -/
def newAttendeeState (id : String) : AttendeeState :=
  if isContentShare id then ⟨id, "content share", false, false⟩
  else ⟨id, "", false, false⟩

/-- One iteration of the `videoSourceIds` loop: create the entry when absent,
then set its `videoEnabled`. -/
def enableVideoSource (m : AttendeeStates) (id : String) : AttendeeStates :=
  let withEntry := if objHas m id then m else m ++ [(id, newAttendeeState id)]
  objModify withEntry id (fun a => { a with videoEnabled := true })

def enableVideoSources (m : AttendeeStates) (videoSourceIds : List String) :
    AttendeeStates :=
  videoSourceIds.foldl enableVideoSource m

/-- Rebuild `cameraSources` in attendee-state iteration order. -/
def collectCameraSources (m : AttendeeStates) : List String :=
  m.foldl (fun acc p =>
    if p.2.videoEnabled && !isContentShare p.2.attendeeId then acc ++ [p.2.attendeeId]
    else acc) []

/-- `UpdateVideoSources` case body. -/
def applyUpdateVideoSources (state : State) (videoSources : List VideoSource) : State :=
  let videoSourceIds := videoSources.map (fun videoSource => videoSource.attendee.attendeeId)
  let updated := enableVideoSources
    (removeStaleContentShares videoSourceIds (resetVideoEnabled state.attendeeStates))
    videoSourceIds
  let cameraSources := collectCameraSources updated
  { state with
      attendeeStates := updated
      videoSourceState := { state.videoSourceState with cameraSources := cameraSources } }

/-- `UpdateActiveSpeakers` case body. -/
def applyUpdateActiveSpeakers (state : State) (activeSpeakers : List String) : State :=
  let activeSpeakersWithCameraSource := activeSpeakers.foldl (fun acc attendeeId =>
    if ((objGet state.attendeeStates attendeeId).map
          (fun a => a.videoEnabled)).getD false
        && state.videoSourceState.cameraSources.contains attendeeId then
      acc ++ [attendeeId]
    else acc) []
  { state with
      videoSourceState := { state.videoSourceState with
        activeSpeakersWithCameraSource := activeSpeakersWithCameraSource } }

/-- `UpdateLocalSourceState` case body. -/
def applyUpdateLocalSourceState (state : State) (isVideoEnabled : Bool)
    (localAttendeeId : Option String) (isLocalUserSharing : Bool)
    (sharingAttendeeId : Option String) : State :=
  let videoSourceState := { state.videoSourceState with
    hasLocalVideo := isVideoEnabled
    hasLocalContentSharing := isLocalUserSharing
    contentShareId := sharingAttendeeId }
  let attendeeStates :=
    match localAttendeeId with
    | Option.none => state.attendeeStates
    | Option.some id =>
        if !(id == "") && objHas state.attendeeStates id then
          objModify state.attendeeStates id (fun a => { a with videoEnabled := isVideoEnabled })
        else state.attendeeStates
  { state with attendeeStates := attendeeStates, videoSourceState := videoSourceState }

/-- `UpdateGridState` case body. -/
def applyUpdateGridState (state : State) (videoGridMode : VideoGridMode) : State :=
  { state with gridState := { state.gridState with mode := videoGridMode } }

/-- `PauseVideoTile` / `UnpauseVideoTile` case bodies: a JS `TypeError` when
the attendee entry is absent (`attendeeStates[attendeeId]` is `undefined`). -/
def applySetBandwidthConstrained (state : State) (attendeeId : String) (value : Bool) :
    Except String State :=
  if objHas state.attendeeStates attendeeId then
    Except.ok { state with
      attendeeStates := objModify state.attendeeStates attendeeId
        (fun a => { a with bandwidthConstrained := value }) }
  else Except.error "TypeError"

/-- `ZoomIn` case body. -/
def applyZoomIn (state : State) : State :=
  let numberOfTiles := state.videoSourceState.cameraSources.length
    + (if state.videoSourceState.hasLocalVideo then 1 else 0)
  if numberOfTiles > state.gridState.threshold then
    { state with gridState := { state.gridState with isZoomed := true } }
  else state

/-- `ZoomOut` case body. -/
def applyZoomOut (state : State) : State :=
  if state.gridState.isZoomed then
    { state with gridState := { state.gridState with isZoomed := false } }
  else state

/-- The reducer. Numeric codes follow the `VideoGridAction` enum declaration
order; the `default` case throws `Error('Incorrect type in
VideoGridStateProvider')`. -/
def reducer (state : State) (action : RawAction) : Except String State :=
  if action.type = 0 then Except.ok initialState
  else if action.type = 1 then
    match action.payload with
    | Payload.roster r => Except.ok (applyUpdateAttendeeStates state r)
    | _ => Except.error "TypeError"
  else if action.type = 2 then
    match action.payload with
    | Payload.videoSources vs => Except.ok (applyUpdateVideoSources state vs)
    | _ => Except.error "TypeError"
  else if action.type = 3 then
    match action.payload with
    | Payload.activeSpeakers ids => Except.ok (applyUpdateActiveSpeakers state ids)
    | _ => Except.error "TypeError"
  else if action.type = 4 then
    match action.payload with
    | Payload.localSourceState v lid sharing sid =>
        Except.ok (applyUpdateLocalSourceState state v lid sharing sid)
    | _ => Except.error "TypeError"
  else if action.type = 5 then
    match action.payload with
    | Payload.videoGridMode m => Except.ok (applyUpdateGridState state m)
    | _ => Except.error "TypeError"
  else if action.type = 6 then
    match action.payload with
    | Payload.attendeeId id => applySetBandwidthConstrained state id true
    | _ => Except.error "TypeError"
  else if action.type = 7 then
    match action.payload with
    | Payload.attendeeId id => applySetBandwidthConstrained state id false
    | _ => Except.error "TypeError"
  else if action.type = 8 then Except.ok (applyZoomIn state)
  else if action.type = 9 then Except.ok (applyZoomOut state)
  else Except.error "Incorrect type in VideoGridStateProvider"

/-- Modelled from the spec (§4.1 `computeDownlinkPreferences`): the per-tile
preference rule stated there — content share is priority 1 / High; an active
speaker is priority 1, High in FeaturedView and the computed target in
GalleryView; a common tile is priority 2 at the computed target. -/
def specPreferenceFor (mode : VideoGridMode) (targetDisplaySize : TargetDisplaySize)
    (tile : VideoSourceWithType) : VideoPreference :=
  if tile.type == "contentShare" then ⟨tile.attendeeId, 1, TargetDisplaySize.High⟩
  else if tile.type == "activeSpeaker" then
    ⟨tile.attendeeId, 1,
      if mode = VideoGridMode.FeaturedView then TargetDisplaySize.High else targetDisplaySize⟩
  else ⟨tile.attendeeId, 2, targetDisplaySize⟩

/-! ### Concrete states used by the theorems below -/

def scenarioAIds : List String := ["a", "b", "c", "d", "e", "f", "g", "h", "i", "j"]

def scenarioAGrid : GridState :=
  { mode := VideoGridMode.GalleryView, isZoomed := false, threshold := 8 }

def scenarioAGridZoomed : GridState :=
  { mode := VideoGridMode.GalleryView, isZoomed := true, threshold := 8 }

def scenarioASources : VideoSourceState :=
  { cameraSources := scenarioAIds
    activeSpeakersWithCameraSource := ["c"]
    contentShareId := none
    hasLocalVideo := false
    hasLocalContentSharing := false }

def scenarioAAttendees : AttendeeStates :=
  scenarioAIds.map (fun id => (id, (⟨id, "", true, false⟩ : AttendeeState)))

/-- The selection claimed for scenario A: the active speaker then seven
common tiles, ids `i` and `j` dropped. -/
def scenarioAClaimedSelection : List VideoSourceWithType :=
  [⟨"c", "activeSpeaker"⟩, ⟨"a", "common"⟩, ⟨"b", "common"⟩, ⟨"d", "common"⟩,
    ⟨"e", "common"⟩, ⟨"f", "common"⟩, ⟨"g", "common"⟩, ⟨"h", "common"⟩]

def featuredOverflowGrid : GridState :=
  { mode := VideoGridMode.FeaturedView, isZoomed := false, threshold := 8 }

def featuredOverflowSources : VideoSourceState :=
  { cameraSources := []
    activeSpeakersWithCameraSource := ["p", "q", "r", "t"]
    contentShareId := none
    hasLocalVideo := false
    hasLocalContentSharing := false }

def featuredOverflowAttendees : AttendeeStates :=
  [("s#content", (⟨"s#content", "content share", true, false⟩ : AttendeeState))]

def featuredOkSources : VideoSourceState :=
  { featuredOverflowSources with contentShareId := some "s#content" }

def zoomedOverflowGrid : GridState :=
  { mode := VideoGridMode.GalleryView, isZoomed := true, threshold := 8 }

def zoomedOverflowSources : VideoSourceState :=
  { cameraSources := ["a", "b", "c", "d", "e", "f", "g", "h"]
    activeSpeakersWithCameraSource := []
    contentShareId := none
    hasLocalVideo := false
    hasLocalContentSharing := false }

def pauseWitnessState : State :=
  { initialState with attendeeStates := [("a", (⟨"a", "", true, false⟩ : AttendeeState))] }

def rosterWitness : Roster := [("y", (⟨"y", none, none⟩ : RosterAttendee))]

def rosterWitnessState : State :=
  { initialState with attendeeStates := [("x", (⟨"x", "", false, false⟩ : AttendeeState))] }

/-- Proof scaffolding for the video-source update: the pointwise effect of the
`videoSourceIds` loop on an entry that was already present before the loop. -/
def setEnabledIfListed (ids : List String) (p : String × AttendeeState) :
    String × AttendeeState :=
  if ids.contains p.1 then (p.1, { p.2 with videoEnabled := true }) else p

/-- Proof scaffolding for the video-source update: the entries the
`videoSourceIds` loop appends, in order of first occurrence, given which keys
are already present. -/
def newEntries (ids : List String) (present : String → Bool) : AttendeeStates :=
  match ids with
  | [] => []
  | id :: rest =>
      if present id then newEntries rest present
      else (id, { newAttendeeState id with videoEnabled := true }) ::
        newEntries rest (fun k => present k || id == k)

def vsWitness : List VideoSource :=
  [{ attendee := { attendeeId := "a" } }, { attendee := { attendeeId := "b#content" } }]

def vsWitnessState1 : State := applyUpdateVideoSources initialState vsWitness

def vsWitnessState2 : State := applyUpdateVideoSources vsWitnessState1 vsWitness

/-- Every tile produced by the selection algorithm carries one of the three
tile types. -/
theorem calc_tile_types (gs : GridState) (vss : VideoSourceState) (as : AttendeeStates) :
    ∀ t ∈ calculateVideoSourcesToBeRendered gs vss as,
      t.type = "contentShare" ∨ t.type = "activeSpeaker" ∨ t.type = "common" := by
  intro t ht
  unfold calculateVideoSourcesToBeRendered contentShareTiles at ht
  simp only [List.mem_append, List.mem_map, List.mem_filterMap] at ht
  rcases ht with (⟨p, hp, hpt⟩ | ⟨a, ha, rfl⟩) | ⟨a, ha, rfl⟩
  · split at hpt
    · cases hpt; left; rfl
    · cases hpt
  · right; left; rfl
  · right; right; rfl

/-- On a tile of one of the three types, the loop body adds exactly the
spec's preference for that tile. -/
theorem addPreferencesForSource_eq (mode : VideoGridMode) (target : TargetDisplaySize)
    (acc : List VideoPreference) (t : VideoSourceWithType)
    (h : t.type = "contentShare" ∨ t.type = "activeSpeaker" ∨ t.type = "common") :
    addPreferencesForSource mode target acc t = acc ++ [specPreferenceFor mode target t] := by
  rcases h with h | h | h <;> simp [addPreferencesForSource, specPreferenceFor, h]

/-- The preference-building loop maps the spec rule over the tile list. -/
theorem foldl_addPreferences (mode : VideoGridMode) (target : TargetDisplaySize) :
    ∀ (l : List VideoSourceWithType) (acc : List VideoPreference),
      (∀ t ∈ l, t.type = "contentShare" ∨ t.type = "activeSpeaker" ∨ t.type = "common") →
      l.foldl (addPreferencesForSource mode target) acc =
        acc ++ l.map (specPreferenceFor mode target) := by
  intro l
  induction l with
  | nil => intro acc _; simp
  | cons t ts ih =>
    intro acc h
    rw [List.foldl_cons, addPreferencesForSource_eq mode target acc t (h t (by simp)),
      ih _ (fun u hu => h u (by simp [hu]))]
    simp

/-- C5: `updateDownlinkPreferences` emits exactly one preference per selected
tile, in order: the computed target is High when (selected tiles + 1 if local
video) is at most the threshold and Low otherwise, content-share tiles get
priority 1 / High, active-speaker tiles get priority 1 with High in
FeaturedView and the computed target in GalleryView, and common tiles get
priority 2 with the computed target. -/
theorem downlink_preference_rules (gs : GridState) (vss : VideoSourceState)
    (as : AttendeeStates) :
    updateDownlinkPreferences gs vss as =
      (calculateVideoSourcesToBeRendered gs vss as).map
        (specPreferenceFor gs.mode
          (if (calculateVideoSourcesToBeRendered gs vss as).length
              + (if vss.hasLocalVideo then 1 else 0) ≤ gs.threshold
            then TargetDisplaySize.High else TargetDisplaySize.Low)) := by
  unfold updateDownlinkPreferences
  rw [foldl_addPreferences _ _ _ _ (calc_tile_types gs vss as)]
  simp

/-! ### Capacity lemmas for the selection algorithm -/

theorem jsSliceTo_length_le {α : Type} (l : List α) (e : Int) (he : 0 ≤ e) :
    ((jsSliceTo l e).length : Int) ≤ e := by
  unfold jsSliceTo
  rw [if_neg (by omega)]
  simp only [List.length_take]
  have h := Nat.min_le_left e.toNat l.length
  omega

theorem jsSliceTo_of_length_le {α : Type} (l : List α) (e : Int)
    (he : (l.length : Int) ≤ e) : jsSliceTo l e = l := by
  unfold jsSliceTo
  rw [if_neg (by omega)]
  exact List.take_of_length_le (by omega)

theorem activeSpeakerBudget_nonneg (mode : VideoGridMode) (hl : Bool)
    (cs : Option String) : 0 ≤ activeSpeakerBudget mode hl cs := by
  cases mode
  · norm_num [activeSpeakerBudget]
  · show (0 : Int) ≤ 4 - (if hl then 1 else 0) - (if jsTruthyStr cs then 1 else 0)
    split <;> split <;> norm_num

theorem emitted_le_budget (gs : GridState) (vss : VideoSourceState) :
    ((emittedActiveSpeakers gs vss).length : Int) ≤
      activeSpeakerBudget gs.mode vss.hasLocalVideo vss.contentShareId := by
  unfold emittedActiveSpeakers
  split
  · exact jsSliceTo_length_le _ _
      (activeSpeakerBudget_nonneg gs.mode vss.hasLocalVideo vss.contentShareId)
  · simpa using activeSpeakerBudget_nonneg gs.mode vss.hasLocalVideo vss.contentShareId

theorem budget_gallery (gs : GridState) (vss : VideoSourceState)
    (h : gs.mode = VideoGridMode.GalleryView) :
    activeSpeakerBudget gs.mode vss.hasLocalVideo vss.contentShareId = 1 := by
  rw [h]
  rfl

theorem budget_featured (gs : GridState) (vss : VideoSourceState)
    (h : gs.mode = VideoGridMode.FeaturedView) :
    activeSpeakerBudget gs.mode vss.hasLocalVideo vss.contentShareId =
      4 - (if vss.hasLocalVideo then 1 else 0)
        - (if jsTruthyStr vss.contentShareId then 1 else 0) := by
  rw [h]
  rfl

theorem gridSize_gallery_zoomed (gs : GridState) (h : gs.mode = VideoGridMode.GalleryView)
    (hz : gs.isZoomed = true) : gridSize gs = (gs.threshold : Int) := by
  unfold gridSize
  rw [h]
  simp [hz]

theorem gridSize_gallery_nonzoomed (gs : GridState)
    (h : gs.mode = VideoGridMode.GalleryView) (hz : gs.isZoomed = false) :
    gridSize gs = MAX_SAFE_INTEGER := by
  unfold gridSize
  rw [h]
  simp [hz]

theorem gridSize_featured (gs : GridState) (h : gs.mode = VideoGridMode.FeaturedView) :
    gridSize gs = 4 := by
  unfold gridSize
  rw [h]

theorem length_filterMap_ite {α β : Type} (c : α → Bool) (g : α → β) (l : List α) :
    (l.filterMap (fun x => if c x then some (g x) else none)).length =
      (l.filter c).length := by
  induction l with
  | nil => rfl
  | cons x xs ih =>
      rw [List.filterMap_cons, List.filter_cons]
      cases hc : c x <;> simp [ih]

theorem contentShareTiles_length (as : AttendeeStates) :
    (contentShareTiles as).length =
      (as.filter (fun p => isContentShare p.1 && p.2.videoEnabled)).length := by
  unfold contentShareTiles
  exact length_filterMap_ite (fun p => isContentShare p.1 && p.2.videoEnabled)
    (fun p => (⟨p.1, "contentShare"⟩ : VideoSourceWithType)) as

/-- When the remaining-slot count is nonnegative, the total number of selected
tiles is at most the grid capacity plus the surplus of content-share tiles
over the `contentShareId ? 1 : 0` term the slot accounting subtracts. -/
theorem calc_length_le_gridSize (gs : GridState) (vss : VideoSourceState)
    (as : AttendeeStates)
    (hcs : ((as.filter (fun p => isContentShare p.1 && p.2.videoEnabled)).length : Int)
      ≤ (if jsTruthyStr vss.contentShareId then 1 else 0))
    (havail : 0 ≤ numberOfAvailableTiles gs vss) :
    ((calculateVideoSourcesToBeRendered gs vss as).length : Int) ≤ gridSize gs := by
  have hcontent := contentShareTiles_length as
  have hcommon := jsSliceTo_length_le (commonSources gs vss)
    (numberOfAvailableTiles gs vss) havail
  have hL : 0 ≤ (if vss.hasLocalVideo then (1 : Int) else 0) := by split <;> norm_num
  have hnum : numberOfAvailableTiles gs vss =
      gridSize gs - (if vss.hasLocalVideo then 1 else 0)
        - (if jsTruthyStr vss.contentShareId then 1 else 0)
        - ((emittedActiveSpeakers gs vss).length : Int) := rfl
  unfold calculateVideoSourcesToBeRendered
  rw [List.length_append, List.length_append, List.length_map, List.length_map]
  omega

/-- C3 counterexample: a FeaturedView state with one enabled content-share
attendee entry but a null `contentShareId` and four active speakers renders
five tiles, exceeding the claimed bound of four (the slot accounting counts
content share via `contentShareId`, not via the emitted content tiles). -/
theorem featured_view_bound_counterexample :
    (calculateVideoSourcesToBeRendered featuredOverflowGrid featuredOverflowSources
        featuredOverflowAttendees).length = 5 ∧
    ¬((calculateVideoSourcesToBeRendered featuredOverflowGrid featuredOverflowSources
        featuredOverflowAttendees).length ≤ 4) := by
  refine ⟨by decide, by decide⟩

/-- C3 amended: in FeaturedView the total number of selected tiles (content
share + active speakers + common, local video never being among them) is at
most 4 provided every enabled content-share attendee entry is accounted for
by `contentShareId` — i.e. there is at most one such entry when
`contentShareId` is set (non-null, non-empty) and none otherwise. -/
theorem featured_view_tile_bound (gs : GridState) (vss : VideoSourceState)
    (as : AttendeeStates) (hmode : gs.mode = VideoGridMode.FeaturedView)
    (hcs : ((as.filter (fun p => isContentShare p.1 && p.2.videoEnabled)).length : Int)
      ≤ (if jsTruthyStr vss.contentShareId then 1 else 0)) :
    (calculateVideoSourcesToBeRendered gs vss as).length ≤ 4 := by
  have hA := emitted_le_budget gs vss
  rw [budget_featured gs vss hmode] at hA
  have havail : 0 ≤ numberOfAvailableTiles gs vss := by
    unfold numberOfAvailableTiles
    rw [gridSize_featured gs hmode]
    omega
  have h := calc_length_le_gridSize gs vss as hcs havail
  rw [gridSize_featured gs hmode] at h
  omega

/-- Witness for C3 (amended) at a concrete FeaturedView state whose only
enabled content-share entry is the one named by `contentShareId`. -/
theorem featured_view_tile_bound_witness :
    (calculateVideoSourcesToBeRendered featuredOverflowGrid featuredOkSources
        featuredOverflowAttendees).length ≤ 4 :=
  featured_view_tile_bound featuredOverflowGrid featuredOkSources
    featuredOverflowAttendees (by decide) (by decide)

/-- C4 counterexample: a zoomed GalleryView state (threshold 8) holding an
enabled content-share entry with a null `contentShareId` and eight camera
sources renders nine tiles, exceeding the threshold. -/
theorem gallery_capacity_counterexample :
    (calculateVideoSourcesToBeRendered zoomedOverflowGrid zoomedOverflowSources
        featuredOverflowAttendees).length = 9 ∧
    ¬((calculateVideoSourcesToBeRendered zoomedOverflowGrid zoomedOverflowSources
        featuredOverflowAttendees).length ≤ zoomedOverflowGrid.threshold) := by
  refine ⟨by decide, by decide⟩

/-- C4 amended: in GalleryView, (1) when not zoomed no common camera source is
ever dropped — every camera source not among the emitted active speakers
appears as a common tile — provided `cameraSources` fits in a JS array (fewer
than 2^32 entries); (2) when zoomed the total number of selected tiles
(excluding local video, which is never among them) is at most `threshold`,
provided every enabled content-share entry is accounted for by
`contentShareId` (as in the FeaturedView bound) and `threshold` is at least 3
(so the slot arithmetic cannot go negative; the shipped threshold of 8
satisfies this). -/
theorem gallery_view_capacity_law (gs : GridState) (vss : VideoSourceState)
    (as : AttendeeStates) (hmode : gs.mode = VideoGridMode.GalleryView) :
    (gs.isZoomed = false → (vss.cameraSources.length : Int) ≤ 4294967295 →
      ∀ id ∈ vss.cameraSources, id ∉ emittedActiveSpeakers gs vss →
        (⟨id, "common"⟩ : VideoSourceWithType) ∈
          calculateVideoSourcesToBeRendered gs vss as) ∧
    (gs.isZoomed = true →
      ((as.filter (fun p => isContentShare p.1 && p.2.videoEnabled)).length : Int)
        ≤ (if jsTruthyStr vss.contentShareId then 1 else 0) →
      3 ≤ gs.threshold →
      (calculateVideoSourcesToBeRendered gs vss as).length ≤ gs.threshold) := by
  have hA := emitted_le_budget gs vss
  rw [budget_gallery gs vss hmode] at hA
  have hL : (if vss.hasLocalVideo then (1 : Int) else 0) ≤ 1 ∧
      0 ≤ (if vss.hasLocalVideo then (1 : Int) else 0) := by split <;> norm_num
  have hS : (if jsTruthyStr vss.contentShareId then (1 : Int) else 0) ≤ 1 ∧
      0 ≤ (if jsTruthyStr vss.contentShareId then (1 : Int) else 0) := by
    split <;> norm_num
  constructor
  · intro hz hlen id hid hnotas
    have hcommonlen : ((commonSources gs vss).length : Int) ≤ 4294967295 := by
      unfold commonSources
      split
      · have := List.length_filter_le
          (fun id => !((emittedActiveSpeakers gs vss).contains id)) vss.cameraSources
        omega
      · omega
    have havail : ((commonSources gs vss).length : Int) ≤
        numberOfAvailableTiles gs vss := by
      unfold numberOfAvailableTiles
      rw [gridSize_gallery_nonzoomed gs hmode hz]
      unfold MAX_SAFE_INTEGER
      omega
    have hslice := jsSliceTo_of_length_le _ _ havail
    have hidcommon : id ∈ commonSources gs vss := by
      unfold commonSources
      split
      · exact List.mem_filter.mpr ⟨hid, by simpa using hnotas⟩
      · exact hid
    unfold calculateVideoSourcesToBeRendered
    rw [hslice]
    exact List.mem_append.mpr (Or.inr (List.mem_map.mpr ⟨id, hidcommon, rfl⟩))
  · intro hz hcs hthr
    have havail : 0 ≤ numberOfAvailableTiles gs vss := by
      unfold numberOfAvailableTiles
      rw [gridSize_gallery_zoomed gs hmode hz]
      omega
    have h := calc_length_le_gridSize gs vss as hcs havail
    rw [gridSize_gallery_zoomed gs hmode hz] at h
    omega

/-- Witness for C4 (amended): in scenario A non-zoomed, camera source `a` is
selected as a common tile; in scenario A zoomed, the selection stays within
the threshold. -/
theorem gallery_view_capacity_law_witness :
    (⟨"a", "common"⟩ : VideoSourceWithType) ∈
      calculateVideoSourcesToBeRendered scenarioAGrid scenarioASources
        scenarioAAttendees ∧
    (calculateVideoSourcesToBeRendered scenarioAGridZoomed scenarioASources
        scenarioAAttendees).length ≤ scenarioAGridZoomed.threshold := by
  refine ⟨(gallery_view_capacity_law scenarioAGrid scenarioASources scenarioAAttendees
      ?_).1 ?_ ?_ "a" ?_ ?_,
    (gallery_view_capacity_law scenarioAGridZoomed scenarioASources
      scenarioAAttendees ?_).2 ?_ ?_ ?_⟩ <;> decide

/-- C1 counterexample: in the non-zoomed GalleryView state of scenario A the
grid capacity is `Number.MAX_SAFE_INTEGER`, so nothing is dropped: the
selection is the active speaker followed by all nine remaining camera sources,
which differs from the eight-tile selection the claim states, and with ten
selected tiles (> threshold 8) every non-content tile is requested at Low,
not High. -/
theorem scenarioA_nonzoomed_counterexample :
    calculateVideoSourcesToBeRendered scenarioAGrid scenarioASources scenarioAAttendees =
      [⟨"c", "activeSpeaker"⟩, ⟨"a", "common"⟩, ⟨"b", "common"⟩, ⟨"d", "common"⟩,
        ⟨"e", "common"⟩, ⟨"f", "common"⟩, ⟨"g", "common"⟩, ⟨"h", "common"⟩,
        ⟨"i", "common"⟩, ⟨"j", "common"⟩] ∧
    calculateVideoSourcesToBeRendered scenarioAGrid scenarioASources scenarioAAttendees ≠
      scenarioAClaimedSelection ∧
    updateDownlinkPreferences scenarioAGrid scenarioASources scenarioAAttendees =
      [⟨"c", 1, TargetDisplaySize.Low⟩, ⟨"a", 2, TargetDisplaySize.Low⟩,
        ⟨"b", 2, TargetDisplaySize.Low⟩, ⟨"d", 2, TargetDisplaySize.Low⟩,
        ⟨"e", 2, TargetDisplaySize.Low⟩, ⟨"f", 2, TargetDisplaySize.Low⟩,
        ⟨"g", 2, TargetDisplaySize.Low⟩, ⟨"h", 2, TargetDisplaySize.Low⟩,
        ⟨"i", 2, TargetDisplaySize.Low⟩, ⟨"j", 2, TargetDisplaySize.Low⟩] := by
  refine ⟨by decide, by decide, by decide⟩

/-- C1 amended: the stated scenario holds once the grid is zoomed
(`isZoomed = true`, threshold 8): the selection is `(c, activeSpeaker)`
followed by exactly the seven common tiles `a,b,d,e,f,g,h` in original
relative order (`i`, `j` dropped), and every selected tile is assigned
target size High (8 tiles ≤ threshold). -/
theorem scenarioA_zoomed_selection_and_preferences :
    calculateVideoSourcesToBeRendered scenarioAGridZoomed scenarioASources
        scenarioAAttendees = scenarioAClaimedSelection ∧
    updateDownlinkPreferences scenarioAGridZoomed scenarioASources scenarioAAttendees =
      [⟨"c", 1, TargetDisplaySize.High⟩, ⟨"a", 2, TargetDisplaySize.High⟩,
        ⟨"b", 2, TargetDisplaySize.High⟩, ⟨"d", 2, TargetDisplaySize.High⟩,
        ⟨"e", 2, TargetDisplaySize.High⟩, ⟨"f", 2, TargetDisplaySize.High⟩,
        ⟨"g", 2, TargetDisplaySize.High⟩, ⟨"h", 2, TargetDisplaySize.High⟩] := by
  refine ⟨by decide, by decide⟩

/-- C2: dispatching the Reset action (code 0) from any prior state yields the
documented default state: empty `attendeeStates`, GalleryView mode, not
zoomed, threshold 8, and empty/null video-source fields. -/
theorem reset_action_restores_documented_defaults (s : State) (p : Payload) :
    reducer s ⟨0, p⟩ = Except.ok initialState ∧
    initialState.attendeeStates = [] ∧
    initialState.gridState.mode = VideoGridMode.GalleryView ∧
    initialState.gridState.isZoomed = false ∧
    initialState.gridState.threshold = 8 ∧
    initialState.videoSourceState.cameraSources = [] ∧
    initialState.videoSourceState.activeSpeakersWithCameraSource = [] ∧
    initialState.videoSourceState.contentShareId = Option.none ∧
    initialState.videoSourceState.hasLocalVideo = false ∧
    initialState.videoSourceState.hasLocalContentSharing = false :=
  ⟨rfl, rfl, rfl, rfl, rfl, rfl, rfl, rfl, rfl, rfl⟩

/-- Pushing the elements satisfying `p` onto an accumulator, in order, is
filtering. -/
theorem foldl_push_filter {α : Type} (p : α → Bool) (l acc : List α) :
    l.foldl (fun acc x => if p x then acc ++ [x] else acc) acc = acc ++ l.filter p := by
  induction l generalizing acc with
  | nil => simp
  | cons x xs ih =>
    cases hp : p x <;> simp [hp, ih, List.filter_cons, List.append_assoc]

/-- C8: `UpdateActiveSpeakers` (code 3) always succeeds and sets
`activeSpeakersWithCameraSource` to exactly the order-preserving sublist of
the given ids whose attendee state has `videoEnabled` and which appear in
`cameraSources`; everything else is dropped silently. -/
theorem update_active_speakers_filters_silently (s : State) (ids : List String) :
    reducer s ⟨3, Payload.activeSpeakers ids⟩ =
      Except.ok { s with videoSourceState := { s.videoSourceState with
        activeSpeakersWithCameraSource := ids.filter (fun id =>
          ((objGet s.attendeeStates id).map (fun a => a.videoEnabled)).getD false
            && s.videoSourceState.cameraSources.contains id) } } := by
  show Except.ok (applyUpdateActiveSpeakers s ids) = _
  unfold applyUpdateActiveSpeakers
  rw [foldl_push_filter]
  simp

/-- C9: any action whose numeric type lies outside the ten enumerated
`VideoGridAction` values makes the reducer throw the
`'Incorrect type in VideoGridStateProvider'` error, never returning a
state. -/
theorem unknown_action_type_throws (s : State) (ty : Int) (p : Payload)
    (h : ty < 0 ∨ 9 < ty) :
    reducer s ⟨ty, p⟩ = Except.error "Incorrect type in VideoGridStateProvider" := by
  have hne : ∀ k : Int, 0 ≤ k → k ≤ 9 → ¬(ty = k) := fun k hk0 hk9 => by omega
  simp only [reducer]
  repeat rw [if_neg (hne _ (by norm_num) (by norm_num))]

/-- Witness for C9 at the concrete out-of-range action type 42. -/
theorem unknown_action_type_throws_witness :
    ((42 : Int) < 0 ∨ 9 < (42 : Int)) ∧
    reducer initialState ⟨42, Payload.none⟩ =
      Except.error "Incorrect type in VideoGridStateProvider" :=
  ⟨Or.inr (by decide), unknown_action_type_throws initialState 42 Payload.none
    (Or.inr (by decide))⟩

/-- C10: `PauseVideoTile`/`UnpauseVideoTile` (codes 6 and 7) throw (a JS
`TypeError` from accessing a field of `undefined`) whenever the given
attendee id is absent from `attendeeStates`, and only under the precondition
that the attendee exists do they perform the documented
`bandwidthConstrained` toggle. -/
theorem pause_unpause_totality_requires_attendee (s : State) (id : String) :
    (objHas s.attendeeStates id = false →
      reducer s ⟨6, Payload.attendeeId id⟩ = Except.error "TypeError" ∧
      reducer s ⟨7, Payload.attendeeId id⟩ = Except.error "TypeError") ∧
    (objHas s.attendeeStates id = true →
      reducer s ⟨6, Payload.attendeeId id⟩ =
        Except.ok { s with attendeeStates := (objModify s.attendeeStates id
          (fun a => { a with bandwidthConstrained := true })) } ∧
      reducer s ⟨7, Payload.attendeeId id⟩ =
        Except.ok { s with attendeeStates := (objModify s.attendeeStates id
          (fun a => { a with bandwidthConstrained := false })) }) := by
  constructor
  · intro h
    constructor
    · show applySetBandwidthConstrained s id true = _
      simp [applySetBandwidthConstrained, h]
    · show applySetBandwidthConstrained s id false = _
      simp [applySetBandwidthConstrained, h]
  · intro h
    constructor
    · show applySetBandwidthConstrained s id true = _
      simp [applySetBandwidthConstrained, h]
    · show applySetBandwidthConstrained s id false = _
      simp [applySetBandwidthConstrained, h]

/-! ### Attendee-state object lemmas (for the roster-update claim) -/

theorem objHas_objModify (m : AttendeeStates) (id k : String)
    (f : AttendeeState → AttendeeState) :
    objHas (objModify m id f) k = objHas m k := by
  unfold objHas objModify
  rw [List.any_map]
  have h : ((fun p => p.1 == k) ∘ fun p : String × AttendeeState =>
      if p.1 == id then (p.1, f p.2) else p) = fun p : String × AttendeeState =>
        p.1 == k := by
    funext p
    by_cases hp : (p.1 == id) = true <;> simp [Function.comp, hp]
  rw [h]

theorem objHas_append (m l : AttendeeStates) (k : String) :
    objHas (m ++ l) k = (objHas m k || objHas l k) := by
  simp [objHas]

theorem rosterMergeStep_preserves (m : AttendeeStates) (kv : String × RosterAttendee)
    (k : String) (h : objHas m k = true) :
    objHas (rosterMergeStep m kv) k = true := by
  unfold rosterMergeStep
  split
  · rw [objHas_objModify]
    exact h
  · rw [objHas_append, h]
    rfl

theorem rosterMergeStep_self (m : AttendeeStates) (kv : String × RosterAttendee) :
    objHas (rosterMergeStep m kv) kv.1 = true := by
  unfold rosterMergeStep
  split
  · rwa [objHas_objModify]
  · rw [objHas_append]
    simp [objHas]

theorem foldl_rosterMerge_preserves (r : Roster) (m : AttendeeStates) (k : String)
    (h : objHas m k = true) : objHas (r.foldl rosterMergeStep m) k = true := by
  induction r generalizing m with
  | nil => exact h
  | cons kv rest ih => exact ih _ (rosterMergeStep_preserves m kv k h)

theorem foldl_rosterMerge_has (r : Roster) (m : AttendeeStates) (kv : String × RosterAttendee)
    (h : kv ∈ r) : objHas (r.foldl rosterMergeStep m) kv.1 = true := by
  induction r generalizing m with
  | nil => cases h
  | cons kv0 rest ih =>
      rcases List.mem_cons.mp h with rfl | h0
      · exact foldl_rosterMerge_preserves rest _ _ (rosterMergeStep_self m kv)
      · exact ih _ h0

theorem rosterMergeStep_no_new (m : AttendeeStates) (kv : String × RosterAttendee)
    (k : String) (h : kv.1 ≠ k) :
    objHas (rosterMergeStep m kv) k = objHas m k := by
  unfold rosterMergeStep
  split
  · rw [objHas_objModify]
  · rw [objHas_append]
    simp [objHas, h]

theorem foldl_rosterMerge_no_new (r : Roster) (m : AttendeeStates) (k : String)
    (h : ∀ kv ∈ r, kv.1 ≠ k) :
    objHas (r.foldl rosterMergeStep m) k = objHas m k := by
  induction r generalizing m with
  | nil => rfl
  | cons kv rest ih =>
      rw [List.foldl_cons, ih _ (fun u hu => h u (List.mem_cons_of_mem kv hu)),
        rosterMergeStep_no_new m kv k (h kv (List.mem_cons_self kv rest))]

theorem foldl_reconcile_objHas (cams : List String) (m : AttendeeStates) (k : String) :
    objHas (cams.foldl reconcileCameraStep m) k = objHas m k := by
  induction cams generalizing m with
  | nil => rfl
  | cons c rest ih =>
      rw [List.foldl_cons, ih]
      unfold reconcileCameraStep
      split
      · rw [objHas_objModify]
      · rfl

theorem objHas_filter_of (m : AttendeeStates) (q : String × AttendeeState → Bool)
    (k : String) (h : ∀ p : String × AttendeeState, p.1 = k → q p = false) :
    objHas (m.filter q) k = false := by
  induction m with
  | nil => rfl
  | cons p ps ih =>
      rw [List.filter_cons]
      by_cases hq : q p = true
      · rw [if_pos hq]
        have hk : (p.1 == k) = false := by
          cases hbe : p.1 == k
          · rfl
          · exact absurd (h p (by simpa using hbe)) (by simp [hq])
        unfold objHas at ih ⊢
        simp [hk, ih]
      · rw [if_neg hq]
        exact ih

/-- C7: after dispatching `UpdateAttendeeStates` with a roster, every
attendee id that is a key of the roster is a key of `attendeeStates`, and
every previously present id that is absent from the roster and does not
carry the content-share modality marker is removed. -/
theorem update_attendee_states_roster_sync (s : State) (r : Roster) (s' : State)
    (h : reducer s ⟨1, Payload.roster r⟩ = Except.ok s') :
    (∀ k, r.any (fun kv => kv.1 == k) = true → objHas s'.attendeeStates k = true) ∧
    (∀ k, objHas s.attendeeStates k = true → isContentShare k = false →
      r.any (fun kv => kv.1 == k) = false → objHas s'.attendeeStates k = false) := by
  rw [show reducer s ⟨1, Payload.roster r⟩ =
    Except.ok (applyUpdateAttendeeStates s r) from rfl] at h
  injection h with h
  subst h
  unfold applyUpdateAttendeeStates
  constructor
  · intro k hk
    rcases List.any_eq_true.mp hk with ⟨kv, hkv, hbe⟩
    have hk1 : kv.1 = k := by simpa using hbe
    show objHas (List.foldl reconcileCameraStep _ _) k = true
    rw [foldl_reconcile_objHas, ← hk1]
    exact foldl_rosterMerge_has r _ kv hkv
  · intro k hk hcs hr
    show objHas (List.foldl reconcileCameraStep _ _) k = false
    rw [foldl_reconcile_objHas, foldl_rosterMerge_no_new r _ k ?notin]
    · refine objHas_filter_of _ _ k ?_
      intro p hp
      simp [hp, hcs, hr]
    · intro kv hkv hkk
      have hany : (List.any r fun kv => kv.1 == k) = true :=
        List.any_eq_true.mpr ⟨kv, hkv, by simp [hkk]⟩
      rw [hany] at hr
      cases hr

/-- Witness for C7: merging roster `[y]` into a state holding only attendee
`x` adds `y` and removes `x`. -/
theorem update_attendee_states_roster_sync_witness :
    objHas (applyUpdateAttendeeStates rosterWitnessState rosterWitness).attendeeStates
      "y" = true ∧
    objHas (applyUpdateAttendeeStates rosterWitnessState rosterWitness).attendeeStates
      "x" = false := by
  have h := update_attendee_states_roster_sync rosterWitnessState rosterWitness
    (applyUpdateAttendeeStates rosterWitnessState rosterWitness) rfl
  exact ⟨h.1 "y" (by decide), h.2 "x" (by decide) (by decide) (by decide)⟩

/-- Witness for C10: pausing an unknown attendee on the empty initial state
throws, and pausing an existing attendee succeeds with the flag set. -/
theorem pause_unpause_totality_requires_attendee_witness :
    reducer initialState ⟨6, Payload.attendeeId "a"⟩ = Except.error "TypeError" ∧
    reducer pauseWitnessState ⟨6, Payload.attendeeId "a"⟩ =
      Except.ok { pauseWitnessState with
        attendeeStates := [("a", (⟨"a", "", true, true⟩ : AttendeeState))] } := by
  constructor
  · exact ((pause_unpause_totality_requires_attendee initialState "a").1 (by decide)).1
  · have h := ((pause_unpause_totality_requires_attendee pauseWitnessState "a").2
      (by decide)).1
    rw [h]
    decide

/-! ### Idempotence of the video-source update -/

theorem objHas_singleton (id : String) (v : AttendeeState) (k : String) :
    objHas [(id, v)] k = (id == k) := by
  simp [objHas]

theorem newEntries_cons (id : String) (rest : List String) (present : String → Bool) :
    newEntries (id :: rest) present =
      if present id then newEntries rest present
      else (id, { newAttendeeState id with videoEnabled := true }) ::
        newEntries rest (fun k => present k || id == k) := rfl

theorem fst_setEnabledIfListed (ids : List String) (p : String × AttendeeState) :
    (setEnabledIfListed ids p).1 = p.1 := by
  unfold setEnabledIfListed
  split <;> rfl

theorem set_videoEnabled_self (a : AttendeeState) (v : Bool) (h : a.videoEnabled = v) :
    ({ a with videoEnabled := v } : AttendeeState) = a := by
  cases a
  cases h
  rfl

theorem not_objHas_key (m : AttendeeStates) (id : String) (h : objHas m id = false) :
    ∀ p ∈ m, (p.1 == id) = false := by
  intro p hp
  cases hbe : (p.1 == id)
  · rfl
  · exfalso
    have hcontra : objHas m id = true := List.any_eq_true.mpr ⟨p, hp, hbe⟩
    rw [h] at hcontra
    cases hcontra

theorem objHas_tail (p : String × AttendeeState) (ps : AttendeeStates) (id : String)
    (h : objHas (p :: ps) id = false) : objHas ps id = false := by
  cases hx : objHas ps id
  · rfl
  · exfalso
    rcases List.any_eq_true.mp hx with ⟨q, hq, hqe⟩
    have hcontra : objHas (p :: ps) id = true :=
      List.any_eq_true.mpr ⟨q, List.mem_cons_of_mem p hq, hqe⟩
    rw [h] at hcontra
    cases hcontra

theorem map_keyMiss (m : AttendeeStates) (id : String)
    (g : String × AttendeeState → AttendeeState) (h : objHas m id = false) :
    m.map (fun p => if p.1 == id then (p.1, g p) else p) = m := by
  induction m with
  | nil => rfl
  | cons p ps ih =>
      have h1 : ¬(p.1 = id) := by
        simpa using not_objHas_key (p :: ps) id h p (List.mem_cons_self p ps)
      simpa [h1] using ih (objHas_tail p ps id h)

theorem setEnabledIfListed_skip (id : String) (rest : List String)
    (p : String × AttendeeState) (h : (p.1 == id) = false) :
    setEnabledIfListed rest p = setEnabledIfListed (id :: rest) p := by
  unfold setEnabledIfListed
  rw [List.contains_cons, h, Bool.false_or]

theorem setEnabledIfListed_comp (id : String) (rest : List String)
    (p : String × AttendeeState) :
    setEnabledIfListed rest
      (if p.1 == id then (p.1, { p.2 with videoEnabled := true }) else p) =
      setEnabledIfListed (id :: rest) p := by
  by_cases hp : p.1 = id
  · by_cases hr : p.1 ∈ rest <;>
      simp [setEnabledIfListed, List.contains_cons, hp, hr]
  · by_cases hr : p.1 ∈ rest <;>
      simp [setEnabledIfListed, List.contains_cons, hp, hr]

theorem enableVideoSources_norm (ids : List String) :
    ∀ m : AttendeeStates, enableVideoSources m ids =
      m.map (setEnabledIfListed ids) ++ newEntries ids (fun k => objHas m k) := by
  induction ids with
  | nil =>
      intro m
      show m = m.map (setEnabledIfListed []) ++ []
      rw [List.append_nil]
      have h : ∀ p ∈ m, setEnabledIfListed [] p = id p := fun p _ => rfl
      rw [List.map_congr_left h, List.map_id]
  | cons id rest ih =>
      intro m
      have step : enableVideoSources m (id :: rest) =
        enableVideoSources (enableVideoSource m id) rest := rfl
      rw [step, ih]
      cases h : objHas m id
      · have he : enableVideoSource m id =
            m ++ [(id, { newAttendeeState id with videoEnabled := true })] := by
          unfold enableVideoSource objModify
          rw [if_neg (by simp [h]), List.map_append, map_keyMiss m id _ h]
          congr 1
          simp
        rw [he, newEntries_cons, if_neg (by simp [h]), List.map_append]
        have hpres : (fun k => objHas
            (m ++ [(id, { newAttendeeState id with videoEnabled := true })]) k) =
            (fun k => objHas m k || id == k) :=
          funext fun k => by rw [objHas_append, objHas_singleton]
        rw [hpres]
        have hm : m.map (setEnabledIfListed rest) =
            m.map (setEnabledIfListed (id :: rest)) :=
          List.map_congr_left (fun p hp =>
            setEnabledIfListed_skip id rest p (not_objHas_key m id h p hp))
        rw [hm]
        have hsingle : List.map (setEnabledIfListed rest)
            [(id, { newAttendeeState id with videoEnabled := true })] =
            [(id, { newAttendeeState id with videoEnabled := true })] := by
          rw [List.map_cons, List.map_nil]
          congr 1
          unfold setEnabledIfListed
          split <;> rfl
        rw [hsingle, List.append_assoc]
        rfl
      · have he : enableVideoSource m id =
            m.map (fun p =>
              if p.1 == id then (p.1, { p.2 with videoEnabled := true }) else p) := by
          unfold enableVideoSource objModify
          rw [if_pos h]
        rw [he, newEntries_cons, if_pos (by simp [h]), List.map_map]
        have hcomp : (setEnabledIfListed rest ∘ fun p =>
            if p.1 == id then (p.1, { p.2 with videoEnabled := true }) else p) =
            setEnabledIfListed (id :: rest) :=
          funext fun p => setEnabledIfListed_comp id rest p
        rw [hcomp]
        have hpres : (fun k => objHas (m.map (fun p =>
            if p.1 == id then (p.1, { p.2 with videoEnabled := true }) else p)) k) =
            (fun k => objHas m k) :=
          funext fun k => objHas_objModify m id k (fun a => { a with videoEnabled := true })
        rw [hpres]

theorem enableVideoSource_preserves (m : AttendeeStates) (id k : String)
    (h : objHas m k = true) : objHas (enableVideoSource m id) k = true := by
  unfold enableVideoSource
  rw [objHas_objModify]
  split
  · exact h
  · rw [objHas_append, h]
    rfl

theorem enableVideoSource_self (m : AttendeeStates) (id : String) :
    objHas (enableVideoSource m id) id = true := by
  unfold enableVideoSource
  rw [objHas_objModify]
  split
  · next hc => exact hc
  · rw [objHas_append, objHas_singleton]
    simp

theorem foldl_enable_preserves (ids : List String) : ∀ (m : AttendeeStates) (k : String),
    objHas m k = true → objHas (enableVideoSources m ids) k = true := by
  induction ids with
  | nil => intro m k h; exact h
  | cons id rest ih =>
      intro m k h
      exact ih _ _ (enableVideoSource_preserves m id k h)

theorem foldl_enable_has (ids : List String) : ∀ (m : AttendeeStates) (id : String),
    id ∈ ids → objHas (enableVideoSources m ids) id = true := by
  induction ids with
  | nil => intro m id h; cases h
  | cons id0 rest ih =>
      intro m id h
      rcases List.mem_cons.mp h with rfl | h0
      · exact foldl_enable_preserves rest _ _ (enableVideoSource_self m id)
      · exact ih _ _ h0

theorem newEntries_nil_of_present (ids : List String) : ∀ present : String → Bool,
    (∀ id ∈ ids, present id = true) → newEntries ids present = [] := by
  induction ids with
  | nil => intro present _; rfl
  | cons id rest ih =>
      intro present h
      rw [newEntries_cons, if_pos (h id (List.mem_cons_self id rest))]
      exact ih _ (fun x hx => h x (List.mem_cons_of_mem id hx))

theorem newEntries_spec (ids : List String) : ∀ (present : String → Bool)
    (p : String × AttendeeState), p ∈ newEntries ids present →
    p.1 ∈ ids ∧ p.2.videoEnabled = true := by
  induction ids with
  | nil => intro present p hp; cases hp
  | cons id rest ih =>
      intro present p hp
      rw [newEntries_cons] at hp
      split at hp
      · rcases ih _ p hp with ⟨h1, h2⟩
        exact ⟨List.mem_cons_of_mem id h1, h2⟩
      · rcases List.mem_cons.mp hp with rfl | h0
        · exact ⟨List.mem_cons_self id rest, rfl⟩
        · rcases ih _ p h0 with ⟨h1, h2⟩
          exact ⟨List.mem_cons_of_mem id h1, h2⟩

theorem enabled_eq_contains (ids : List String) (B : AttendeeStates)
    (hB : ∀ p ∈ B, p.2.videoEnabled = false) :
    ∀ p ∈ enableVideoSources B ids, p.2.videoEnabled = ids.contains p.1 := by
  rw [enableVideoSources_norm]
  intro p hp
  rcases List.mem_append.mp hp with hmap | hnew
  · rcases List.mem_map.mp hmap with ⟨q, hq, rfl⟩
    rw [fst_setEnabledIfListed]
    unfold setEnabledIfListed
    cases hc : ids.contains q.1 <;> simp [hc, hB q hq]
  · have hs := newEntries_spec ids _ p hnew
    rw [hs.2]
    have hc : ids.contains p.1 = true := by simpa using hs.1
    rw [hc]

theorem content_in_ids (ids : List String) (B : AttendeeStates)
    (hB : ∀ p ∈ B, isContentShare p.1 = true → ids.contains p.1 = true) :
    ∀ p ∈ enableVideoSources B ids, isContentShare p.1 = true →
      ids.contains p.1 = true := by
  rw [enableVideoSources_norm]
  intro p hp hc
  rcases List.mem_append.mp hp with hmap | hnew
  · rcases List.mem_map.mp hmap with ⟨q, hq, rfl⟩
    rw [fst_setEnabledIfListed] at hc ⊢
    exact hB q hq hc
  · simpa using (newEntries_spec ids _ p hnew).1

theorem resetVideoEnabled_disabled (m : AttendeeStates) :
    ∀ p ∈ resetVideoEnabled m, p.2.videoEnabled = false := by
  intro p hp
  rcases List.mem_map.mp hp with ⟨q, _, rfl⟩
  rfl

theorem removeStale_disabled (ids : List String) (m : AttendeeStates) :
    ∀ p ∈ removeStaleContentShares ids (resetVideoEnabled m),
      p.2.videoEnabled = false :=
  fun p hp => resetVideoEnabled_disabled m p (List.mem_filter.mp hp).1

theorem removeStale_content (ids : List String) (m : AttendeeStates) :
    ∀ p ∈ removeStaleContentShares ids m, isContentShare p.1 = true →
      ids.contains p.1 = true := by
  intro p hp hc
  have hq := (List.mem_filter.mp hp).2
  cases hcon : ids.contains p.1
  · rw [hc, hcon] at hq
    cases hq
  · rfl

theorem objHas_resetVideoEnabled (m : AttendeeStates) (k : String) :
    objHas (resetVideoEnabled m) k = objHas m k := by
  unfold objHas resetVideoEnabled
  rw [List.any_map]
  rfl

/-- The attendee-state transformation of `UpdateVideoSources` is idempotent. -/
theorem updatedAttendees_idem (A : AttendeeStates) (ids : List String) :
    enableVideoSources (removeStaleContentShares ids (resetVideoEnabled
      (enableVideoSources (removeStaleContentShares ids (resetVideoEnabled A)) ids))) ids =
    enableVideoSources (removeStaleContentShares ids (resetVideoEnabled A)) ids := by
  set A1 := enableVideoSources (removeStaleContentShares ids (resetVideoEnabled A)) ids
    with hA1def
  have hF1 : ∀ p ∈ A1, p.2.videoEnabled = ids.contains p.1 :=
    enabled_eq_contains ids _ (removeStale_disabled ids A)
  have hF3 : ∀ p ∈ A1, isContentShare p.1 = true → ids.contains p.1 = true :=
    content_in_ids ids _ (removeStale_content ids (resetVideoEnabled A))
  have hF2 : ∀ id ∈ ids, objHas A1 id = true := fun id hid => foldl_enable_has ids _ id hid
  have hfilter : removeStaleContentShares ids (resetVideoEnabled A1) =
      resetVideoEnabled A1 := by
    unfold removeStaleContentShares
    rw [List.filter_eq_self]
    intro p hp
    rcases List.mem_map.mp hp with ⟨q, hq, rfl⟩
    cases hc : isContentShare q.1
    · simp [hc]
    · have hin : ids.contains q.1 = true := hF3 q hq hc
      simp [hc]
      simpa using hin
  rw [hfilter, enableVideoSources_norm]
  have hpres : (fun k => objHas (resetVideoEnabled A1) k) = fun k => objHas A1 k :=
    funext fun k => objHas_resetVideoEnabled A1 k
  rw [hpres, newEntries_nil_of_present ids _ hF2, List.append_nil]
  unfold resetVideoEnabled
  rw [List.map_map]
  have hpt : ∀ p ∈ A1, (setEnabledIfListed ids ∘ fun p =>
      (p.1, { p.2 with videoEnabled := false })) p = id p := by
    intro p hp
    show setEnabledIfListed ids (p.1, { p.2 with videoEnabled := false }) = p
    unfold setEnabledIfListed
    cases hc : ids.contains p.1
    · rw [if_neg (by simp [hc])]
      have hv : p.2.videoEnabled = false := by rw [hF1 p hp, hc]
      rw [set_videoEnabled_self p.2 false hv]
    · rw [if_pos (by simp [hc])]
      have hv : p.2.videoEnabled = true := by rw [hF1 p hp, hc]
      show (p.1, { { p.2 with videoEnabled := false } with videoEnabled := true }) = p
      have hcollapse : ({ { p.2 with videoEnabled := false } with videoEnabled := true }
          : AttendeeState) = { p.2 with videoEnabled := true } := rfl
      rw [hcollapse, set_videoEnabled_self p.2 true hv]
  rw [List.map_congr_left hpt, List.map_id]

theorem applyUpdateVideoSources_idem (s : State) (vs : List VideoSource) :
    applyUpdateVideoSources (applyUpdateVideoSources s vs) vs =
      applyUpdateVideoSources s vs := by
  show ({ applyUpdateVideoSources s vs with
      attendeeStates := enableVideoSources (removeStaleContentShares
        (vs.map (fun v => v.attendee.attendeeId)) (resetVideoEnabled
          (applyUpdateVideoSources s vs).attendeeStates))
        (vs.map (fun v => v.attendee.attendeeId))
      videoSourceState := { (applyUpdateVideoSources s vs).videoSourceState with
        cameraSources := collectCameraSources (enableVideoSources
          (removeStaleContentShares (vs.map (fun v => v.attendee.attendeeId))
            (resetVideoEnabled (applyUpdateVideoSources s vs).attendeeStates))
          (vs.map (fun v => v.attendee.attendeeId))) } } : State) =
    applyUpdateVideoSources s vs
  have hA : (applyUpdateVideoSources s vs).attendeeStates =
      enableVideoSources (removeStaleContentShares
        (vs.map (fun v => v.attendee.attendeeId))
        (resetVideoEnabled s.attendeeStates)) (vs.map (fun v => v.attendee.attendeeId)) :=
    rfl
  rw [hA, updatedAttendees_idem]
  rfl

/-- C6: dispatching `UpdateVideoSources` (code 2) twice in a row with the
identical source list yields the same `cameraSources` sequence and the same
computed downlink preference set after the second dispatch as after the
first. -/
theorem update_video_sources_idempotent (s : State) (vs : List VideoSource)
    (s1 s2 : State)
    (h1 : reducer s ⟨2, Payload.videoSources vs⟩ = Except.ok s1)
    (h2 : reducer s1 ⟨2, Payload.videoSources vs⟩ = Except.ok s2) :
    s2.videoSourceState.cameraSources = s1.videoSourceState.cameraSources ∧
    updateDownlinkPreferences s2.gridState s2.videoSourceState s2.attendeeStates =
      updateDownlinkPreferences s1.gridState s1.videoSourceState s1.attendeeStates := by
  rw [show reducer s ⟨2, Payload.videoSources vs⟩ =
    Except.ok (applyUpdateVideoSources s vs) from rfl] at h1
  injection h1 with h1
  subst h1
  rw [show reducer (applyUpdateVideoSources s vs) ⟨2, Payload.videoSources vs⟩ =
    Except.ok (applyUpdateVideoSources (applyUpdateVideoSources s vs) vs) from rfl] at h2
  injection h2 with h2
  subst h2
  rw [applyUpdateVideoSources_idem]
  exact ⟨rfl, rfl⟩

/-- Witness for C6: dispatching the same two-source list (one camera, one
content share) twice from the initial state. -/
theorem update_video_sources_idempotent_witness :
    vsWitnessState2.videoSourceState.cameraSources =
      vsWitnessState1.videoSourceState.cameraSources ∧
    updateDownlinkPreferences vsWitnessState2.gridState vsWitnessState2.videoSourceState
        vsWitnessState2.attendeeStates =
      updateDownlinkPreferences vsWitnessState1.gridState vsWitnessState1.videoSourceState
        vsWitnessState1.attendeeStates :=
  update_video_sources_idempotent initialState vsWitness vsWitnessState1 vsWitnessState2
    rfl rfl
